import Mathlib

/-!
Verification of the CRM backend (Express + Sequelize + Joi).

This file gives a shallow embedding of the backend core: the five Sequelize
models and their associations (models/index, models/User.js, models/Customer.js,
models/Lead.js, models/Task.js, models/Interaction.js), the auth and validation
middleware (middleware/auth.js, middleware/validation.js), the route handlers
(routes/auth.js, routes/users.js, routes/customers.js, routes/leads.js,
routes/tasks.js, routes/interactions.js, routes/reports.js), and proves the
specification claims about them.

Conventions of the embedding:
  - the database is an explicit state value (lists of rows), timestamps are
    naturals, monetary values are rationals;
  - request bodies are association lists of JSON-like values, mirroring the
    fact that Sequelize silently drops body keys that are not model
    attributes;
  - jwt verification is abstracted into its outcome classification (missing,
    expired, malformed, or a decoded user id), which is all the middleware
    inspects;
  - bcrypt hashing is abstracted into an injective tagging function, which is
    all the credential flow relies on.
-/

namespace CRM

/-- Lead pipeline stage, models/Lead.js: ENUM(lead, qualified, proposal, closed). -/
inductive Stage where
  | lead
  | qualified
  | proposal
  | closed
  deriving DecidableEq, Repr

/-- Task status, models/Task.js: ENUM(pending, in-progress, completed). -/
inductive TaskStatus where
  | pending
  | inProgress
  | completed
  deriving DecidableEq, Repr

/-- Task priority, models/Task.js: ENUM(low, medium, high). -/
inductive Priority where
  | low
  | medium
  | high
  deriving DecidableEq, Repr

/-- User role, models/User.js: ENUM(admin, user). -/
inductive Role where
  | admin
  | user
  deriving DecidableEq, Repr

/-- Interaction type, models/Interaction.js: ENUM(call, email, meeting, note). -/
inductive InterType where
  | call
  | email
  | meeting
  | note
  deriving DecidableEq, Repr

/-- String form of a stage, as it travels in JSON bodies. -/
def stageToString : Stage → String
  | Stage.lead => "lead"
  | Stage.qualified => "qualified"
  | Stage.proposal => "proposal"
  | Stage.closed => "closed"

/-- Parse a stage string, the inverse used by the ENUM column. -/
def stageOfString (s : String) : Option Stage :=
  if s = "lead" then some Stage.lead
  else if s = "qualified" then some Stage.qualified
  else if s = "proposal" then some Stage.proposal
  else if s = "closed" then some Stage.closed
  else none

/-- String form of a task status. -/
def statusToString : TaskStatus → String
  | TaskStatus.pending => "pending"
  | TaskStatus.inProgress => "in-progress"
  | TaskStatus.completed => "completed"

/-- Parse a task status string. -/
def statusOfString (s : String) : Option TaskStatus :=
  if s = "pending" then some TaskStatus.pending
  else if s = "in-progress" then some TaskStatus.inProgress
  else if s = "completed" then some TaskStatus.completed
  else none

/-- String form of a priority. -/
def priorityToString : Priority → String
  | Priority.low => "low"
  | Priority.medium => "medium"
  | Priority.high => "high"

/-- Parse a priority string. -/
def priorityOfString (s : String) : Option Priority :=
  if s = "low" then some Priority.low
  else if s = "medium" then some Priority.medium
  else if s = "high" then some Priority.high
  else none

/-- String form of a role. -/
def roleToString : Role → String
  | Role.admin => "admin"
  | Role.user => "user"

/-- String form of an interaction type. -/
def interTypeToString : InterType → String
  | InterType.call => "call"
  | InterType.email => "email"
  | InterType.meeting => "meeting"
  | InterType.note => "note"

/-- Parse an interaction type string. -/
def interTypeOfString (s : String) : Option InterType :=
  if s = "call" then some InterType.call
  else if s = "email" then some InterType.email
  else if s = "meeting" then some InterType.meeting
  else if s = "note" then some InterType.note
  else none

/-- A row of the users table, models/User.js. -/
structure UserRow where
  id : Nat
  name : String
  email : String
  password : String
  role : Role
  createdAt : Nat
  deriving DecidableEq, Repr

/-- A row of the customers table, models/Customer.js. Optional columns are
nullable in the model; tags is a JSON-serialized string list. -/
structure CustomerRow where
  id : Nat
  name : String
  email : Option String
  phone : Option String
  company : Option String
  tags : List String
  notes : Option String
  createdAt : Nat
  deriving DecidableEq, Repr

/-- A row of the leads table, models/Lead.js. The customer reference column is
the attribute named customer_id (snake case, no field mapping) and is NOT NULL;
the user reference assigned_to is nullable. -/
structure LeadRow where
  id : Nat
  title : String
  description : Option String
  stage : Stage
  value : Option ℚ
  customerId : Nat
  assignedTo : Option Nat
  createdAt : Nat
  updatedAt : Nat
  deriving DecidableEq, Repr

/-- A row of the tasks table, models/Task.js. Unlike the Lead model, the Task
model declares camelCase attributes customerId and assignedTo with snake-case
field mappings, and its customer reference is nullable. -/
structure TaskRow where
  id : Nat
  title : String
  description : Option String
  status : TaskStatus
  priority : Priority
  dueDate : Option Nat
  assignedTo : Option Nat
  customerId : Option Nat
  createdAt : Nat
  updatedAt : Nat
  deriving DecidableEq, Repr

/-- A row of the interactions table, models/Interaction.js. The customer
reference customer_id is NOT NULL; created_by is nullable. -/
structure InteractionRow where
  id : Nat
  customerId : Nat
  type : InterType
  notes : Option String
  date : Nat
  createdBy : Option Nat
  deriving DecidableEq, Repr

/-- The whole persistent state: the five tables of models/index. -/
structure Db where
  users : List UserRow
  customers : List CustomerRow
  leads : List LeadRow
  tasks : List TaskRow
  interactions : List InteractionRow
  deriving DecidableEq, Repr

/-- A JSON-ish value as it appears in a request or response body. -/
inductive JVal where
  | s (v : String)
  | n (v : ℚ)
  | arr (v : List String)
  | jnull
  deriving DecidableEq, Repr

/-- A JSON object: an association list of keys to values. Request bodies and
returned entity representations both use this shape. -/
abbrev JObj := List (String × JVal)

/-- Look up a key in a JSON object. -/
def JObj.get (b : JObj) (k : String) : Option JVal :=
  (b.find? (fun p => p.1 = k)).map (fun p => p.2)

/-- Whether a JSON object carries a given key. -/
def JObj.hasKey (b : JObj) (k : String) : Bool :=
  (b.map (fun p => p.1)).contains k

/-- The uniform response envelope written by the successResponse and
errorResponse helpers that every route file repeats. -/
structure Response where
  status : Nat
  success : Bool
  code : Option String
  message : Option String
  errMsg : Option String
  deriving DecidableEq, Repr

/-- Success envelope, helper successResponse. -/
def successResponse (message : String) (status : Nat) : Response :=
  { status := status, success := true, code := none, message := some message, errMsg := none }

/-- Error envelope, helper errorResponse. -/
def errorResponse (err : String) (code : String) (status : Nat) : Response :=
  { status := status, success := false, code := some code, message := none, errMsg := some err }

/-- Result of running a mutating endpoint: the response envelope, the database
after the request, plus the response-data parts the claims inspect (a returned
user representation, and the old and new stage of a stage transition). -/
structure MResult where
  resp : Response
  db : Db
  userRep : Option JObj
  oldStage : Option Stage
  newStage : Option Stage
  deriving DecidableEq, Repr

/-- Pack a result that carries no user representation and no stage data. -/
def plainResult (resp : Response) (db : Db) : MResult :=
  { resp := resp, db := db, userRep := none, oldStage := none, newStage := none }

/-! ## Authentication and authorization middleware, middleware/auth.js -/

/-- Outcome of jwt.verify on the Authorization header: the header can be
absent, the token can be expired (TokenExpiredError), malformed (any other
verification error), or decode to a user id. This classification is the only
thing authenticateToken inspects. -/
inductive TokenCheck where
  | missing
  | expired
  | malformed
  | decoded (userId : Nat)
  deriving DecidableEq, Repr

/-- The authenticateToken middleware: no token replies 401, an expired token
replies 401 with the Token expired message, any other verification failure
replies 401 with the Invalid token message, a decoded id whose user no longer
exists replies 401 with the User not found message; otherwise the user row
becomes the request principal. -/
def authenticateToken (db : Db) (t : TokenCheck) : Except Response UserRow :=
  match t with
  | TokenCheck.missing =>
      Except.error (errorResponse "Access token required" "AUTHENTICATION_ERROR" 401)
  | TokenCheck.expired =>
      Except.error (errorResponse "Token expired" "AUTHENTICATION_ERROR" 401)
  | TokenCheck.malformed =>
      Except.error (errorResponse "Invalid token" "AUTHENTICATION_ERROR" 401)
  | TokenCheck.decoded uid =>
      match db.users.find? (fun u => u.id = uid) with
      | none => Except.error (errorResponse "User not found" "AUTHENTICATION_ERROR" 401)
      | some u => Except.ok u

/-- The requireRole(roles) middleware: a request with no resolved principal is
rejected 401 AUTHENTICATION_ERROR, a principal whose role is outside the
declared set is rejected 403 AUTHORIZATION_ERROR, otherwise the gate is
silent. -/
def requireRole (roles : List Role) (principal : Option UserRow) : Option Response :=
  match principal with
  | none => some (errorResponse "Authentication required" "AUTHENTICATION_ERROR" 401)
  | some u =>
      if roles.contains u.role then none
      else some (errorResponse "Insufficient permissions" "AUTHORIZATION_ERROR" 403)

/-- requireAdmin = requireRole(admin). -/
def requireAdmin (principal : Option UserRow) : Option Response :=
  requireRole [Role.admin] principal

/-- requireUser = requireRole(admin, user). -/
def requireUser (principal : Option UserRow) : Option Response :=
  requireRole [Role.admin, Role.user] principal

/-! ## User serialization, models/User.js and routes/users.js -/

/-- Raw attribute object of a user row, this.get() in models/User.js. -/
def userAttributes (u : UserRow) : JObj :=
  [ ("id", JVal.n (u.id : ℚ)),
    ("name", JVal.s u.name),
    ("email", JVal.s u.email),
    ("password", JVal.s u.password),
    ("role", JVal.s (roleToString u.role)),
    ("createdAt", JVal.n (u.createdAt : ℚ)) ]

/-- User.prototype.toJSON: copy the raw attributes, then delete the password
key; every user representation built on an instance goes through this. -/
def toJSONUser (u : UserRow) : JObj :=
  (userAttributes u).filter (fun p => p.1 ≠ "password")

/-- Query-level attribute exclusion used by GET /api/users and
GET /api/users/:id: attributes exclude password. -/
def excludePasswordAttributes (u : UserRow) : JObj :=
  (userAttributes u).filter (fun p => p.1 ≠ "password")

/-- Abstraction of the bcrypt hash applied by the beforeCreate hook: an
injective tag on the plaintext; the embedding only relies on hashed and
plaintext values being distinguishable and comparable. -/
def bcryptHash (plain : String) : String :=
  String.append "bcrypt$" plain

/-! ## Joi validation schemas, middleware/validation.js

Each schema becomes a function from a request body to the first validation
failure message, checking the declared keys in schema order and then the
unknown-key rule (Joi objects reject keys outside the schema by default).
The Joi email regex is abstracted into the presence of an at sign; custom
messages declared in the source are reproduced verbatim, the remaining
messages follow the Joi default shapes. -/

/-- First error among a list of independent field check results. -/
def firstErr : List (Option String) → Option String
  | [] => none
  | some m :: _ => some m
  | none :: rest => firstErr rest

/-- Joi default type message for a non-string value under a string rule. -/
def mustBeString (key : String) : String :=
  String.append (String.append "\"" key) "\" must be a string"

/-- Abstraction of the Joi email format test. -/
def isEmailLike (v : String) : Bool :=
  v.data.contains '@'

/-- Required string field with length bounds and custom messages:
string().min(a).max(b).required(). -/
def reqString (b : JObj) (key : String) (minLen maxLen : Nat)
    (reqMsg minMsg maxMsg : String) : Option String :=
  match b.get key with
  | none => some reqMsg
  | some (JVal.s v) =>
      if v.length < minLen then some minMsg
      else if maxLen < v.length then some maxMsg
      else none
  | some _ => some (mustBeString key)

/-- Optional string field with an upper length bound allowing empty and null:
string().max(n).allow(empty, null). -/
def optString (b : JObj) (key : String) (maxLen : Nat) (maxMsg : String) :
    Option String :=
  match b.get key with
  | none => none
  | some JVal.jnull => none
  | some (JVal.s v) =>
      if v = "" then none
      else if maxLen < v.length then some maxMsg
      else none
  | some _ => some (mustBeString key)

/-- Required email field with custom messages: string().email().required(). -/
def reqEmail (b : JObj) (key reqMsg emailMsg : String) : Option String :=
  match b.get key with
  | none => some reqMsg
  | some (JVal.s v) => if isEmailLike v then none else some emailMsg
  | some _ => some (mustBeString key)

/-- Optional email allowing empty and null: string().email().allow(empty, null). -/
def optEmail (b : JObj) (key emailMsg : String) : Option String :=
  match b.get key with
  | none => none
  | some JVal.jnull => none
  | some (JVal.s v) =>
      if v = "" then none
      else if isEmailLike v then none else some emailMsg
  | some _ => some (mustBeString key)

/-- Optional enumeration field with a default: string().valid(vs).default(v).
The Joi default never mutates req.body, so absence is simply accepted here. -/
def enumField (b : JObj) (key : String) (allowed : List String)
    (oneOfMsg : String) : Option String :=
  match b.get key with
  | none => none
  | some (JVal.s v) => if allowed.contains v then none else some oneOfMsg
  | some _ => some oneOfMsg

/-- Required enumeration field: string().valid(vs).required() with a custom
required message. -/
def reqEnumField (b : JObj) (key : String) (allowed : List String)
    (reqMsg oneOfMsg : String) : Option String :=
  match b.get key with
  | none => some reqMsg
  | some (JVal.s v) => if allowed.contains v then none else some oneOfMsg
  | some _ => some oneOfMsg

/-- Optional number with a lower bound allowing null: number().min(m).allow(null). -/
def optNumberMin (b : JObj) (key : String) (lo : ℚ) (minMsg : String) :
    Option String :=
  match b.get key with
  | none => none
  | some JVal.jnull => none
  | some (JVal.n q) => if q < lo then some minMsg else none
  | some _ => some (String.append (String.append "\"" key) "\" must be a number")

/-- Optional integer allowing null: number().integer().allow(null). -/
def optInteger (b : JObj) (key : String) : Option String :=
  match b.get key with
  | none => none
  | some JVal.jnull => none
  | some (JVal.n q) =>
      if q.den = 1 then none
      else some (String.append (String.append "\"" key) "\" must be an integer")
  | some _ => some (String.append (String.append "\"" key) "\" must be a number")

/-- Required integer with a custom required message: number().integer().required(). -/
def reqInteger (b : JObj) (key reqMsg : String) : Option String :=
  match b.get key with
  | none => some reqMsg
  | some (JVal.n q) =>
      if q.den = 1 then none
      else some (String.append (String.append "\"" key) "\" must be an integer")
  | some _ => some (String.append (String.append "\"" key) "\" must be a number")

/-- Optional date: date().allow(null) when nullOk, date() or
date().default(now) otherwise; numbers and strings are accepted as date
inputs, arrays are not. -/
def dateField (b : JObj) (key : String) (nullOk : Bool) : Option String :=
  match b.get key with
  | none => none
  | some JVal.jnull =>
      if nullOk then none
      else some (String.append (String.append "\"" key) "\" must be a valid date")
  | some (JVal.n _) => none
  | some (JVal.s _) => none
  | some (JVal.arr _) =>
      some (String.append (String.append "\"" key) "\" must be a valid date")

/-- Tags field: array().items(string()).default(empty). -/
def tagsField (b : JObj) (key : String) : Option String :=
  match b.get key with
  | none => none
  | some (JVal.arr _) => none
  | some _ => some (String.append (String.append "\"" key) "\" must be an array")

/-- Unknown-key rule of Joi objects: the first body key outside the schema is
rejected. -/
def unknownKeys (b : JObj) (allowed : List String) : Option String :=
  match b.find? (fun p => (allowed.contains p.1) = false) with
  | none => none
  | some p => some (String.append (String.append "\"" p.1) "\" is not allowed")

/-- loginSchema. -/
def loginCheck (b : JObj) : Option String :=
  firstErr
    [ reqEmail b "email" "Email is required" "Please provide a valid email address",
      reqString b "password" 6 1000000 "Password is required"
        "Password must be at least 6 characters long" "",
      unknownKeys b ["email", "password"] ]

/-- registerSchema. -/
def registerCheck (b : JObj) : Option String :=
  firstErr
    [ reqString b "name" 2 255 "Name is required"
        "Name must be at least 2 characters long" "Name cannot exceed 255 characters",
      reqEmail b "email" "Email is required" "Please provide a valid email address",
      reqString b "password" 6 1000000 "Password is required"
        "Password must be at least 6 characters long" "",
      enumField b "role" ["admin", "user"] "\"role\" must be one of [admin, user]",
      unknownKeys b ["name", "email", "password", "role"] ]

/-- customerSchema. -/
def customerCheck (b : JObj) : Option String :=
  firstErr
    [ reqString b "name" 2 255 "Name is required"
        "Name must be at least 2 characters long" "Name cannot exceed 255 characters",
      optEmail b "email" "Please provide a valid email address",
      optString b "phone" 50
        "\"phone\" length must be less than or equal to 50 characters long",
      optString b "company" 255
        "\"company\" length must be less than or equal to 255 characters long",
      tagsField b "tags",
      optString b "notes" 1000
        "\"notes\" length must be less than or equal to 1000 characters long",
      unknownKeys b ["name", "email", "phone", "company", "tags", "notes"] ]

/-- leadSchema. The customer reference key declared here is customerId in
camel case. -/
def leadCheck (b : JObj) : Option String :=
  firstErr
    [ reqString b "title" 2 255 "Title is required"
        "Title must be at least 2 characters long" "Title cannot exceed 255 characters",
      optString b "description" 2000
        "\"description\" length must be less than or equal to 2000 characters long",
      enumField b "stage" ["lead", "qualified", "proposal", "closed"]
        "\"stage\" must be one of [lead, qualified, proposal, closed]",
      optNumberMin b "value" 0 "\"value\" must be greater than or equal to 0",
      optInteger b "customerId",
      optInteger b "assignedTo",
      unknownKeys b ["title", "description", "stage", "value", "customerId", "assignedTo"] ]

/-- taskSchema. -/
def taskCheck (b : JObj) : Option String :=
  firstErr
    [ reqString b "title" 2 255 "Title is required"
        "Title must be at least 2 characters long" "Title cannot exceed 255 characters",
      optString b "description" 1000
        "\"description\" length must be less than or equal to 1000 characters long",
      enumField b "status" ["pending", "in-progress", "completed"]
        "\"status\" must be one of [pending, in-progress, completed]",
      enumField b "priority" ["low", "medium", "high"]
        "\"priority\" must be one of [low, medium, high]",
      dateField b "dueDate" true,
      optInteger b "assignedTo",
      optInteger b "customerId",
      unknownKeys b ["title", "description", "status", "priority", "dueDate", "assignedTo", "customerId"] ]

/-- interactionSchema. -/
def interactionCheck (b : JObj) : Option String :=
  firstErr
    [ reqInteger b "customerId" "Customer is required",
      reqEnumField b "type" ["call", "email", "meeting", "note"]
        "Interaction type is required" "\"type\" must be one of [call, email, meeting, note]",
      optString b "notes" 2000
        "\"notes\" length must be less than or equal to 2000 characters long",
      dateField b "date" false,
      unknownKeys b ["customerId", "type", "notes", "date"] ]

/-- updateLeadStageSchema. -/
def updateLeadStageCheck (b : JObj) : Option String :=
  firstErr
    [ reqEnumField b "stage" ["lead", "qualified", "proposal", "closed"]
        "Stage is required" "\"stage\" must be one of [lead, qualified, proposal, closed]",
      unknownKeys b ["stage"] ]

/-- updateTaskStatusSchema. -/
def updateTaskStatusCheck (b : JObj) : Option String :=
  firstErr
    [ reqEnumField b "status" ["pending", "in-progress", "completed"]
        "Status is required" "\"status\" must be one of [pending, in-progress, completed]",
      unknownKeys b ["status"] ]

/-- The validate(schema) middleware: run the schema over the body; on the
first failure reply 400 VALIDATION_ERROR carrying error.details[0].message
and never call the handler (so no persistence call runs); otherwise forward
the untouched body. -/
def validateThen (check : JObj → Option String) (handler : Db → JObj → MResult)
    (db : Db) (b : JObj) : MResult :=
  match check b with
  | some msg => plainResult (errorResponse msg "VALIDATION_ERROR" 400) db
  | none => handler db b

/-- The mutating endpoints named by the validation contract. -/
inductive MutatingEndpoint where
  | registerUser
  | updateUser
  | createCustomer
  | updateCustomer
  | createLead
  | updateLead
  | updateLeadStage
  | createTask
  | updateTask
  | updateTaskStatus
  | createInteraction
  deriving DecidableEq, Repr

/-- The Joi schemas declared in middleware/validation.js. -/
inductive SchemaId where
  | loginSchema
  | registerSchema
  | customerSchema
  | leadSchema
  | taskSchema
  | interactionSchema
  | updateLeadStageSchema
  | updateTaskStatusSchema
  deriving DecidableEq, Repr

/-- The validate(schema) middleware attached to each mutating route, read off
the route declarations: every mutating route declares one, except
PUT /api/users/:id (routes/users.js), which declares none and feeds the raw
body fields straight into user.update. -/
def declaredSchema : MutatingEndpoint → Option SchemaId
  | MutatingEndpoint.registerUser => some SchemaId.registerSchema
  | MutatingEndpoint.updateUser => none
  | MutatingEndpoint.createCustomer => some SchemaId.customerSchema
  | MutatingEndpoint.updateCustomer => some SchemaId.customerSchema
  | MutatingEndpoint.createLead => some SchemaId.leadSchema
  | MutatingEndpoint.updateLead => some SchemaId.leadSchema
  | MutatingEndpoint.updateLeadStage => some SchemaId.updateLeadStageSchema
  | MutatingEndpoint.createTask => some SchemaId.taskSchema
  | MutatingEndpoint.updateTask => some SchemaId.taskSchema
  | MutatingEndpoint.updateTaskStatus => some SchemaId.updateTaskStatusSchema
  | MutatingEndpoint.createInteraction => some SchemaId.interactionSchema

/-! ## Body field access and row construction helpers -/

/-- String field of a body, none when absent or not a string. -/
def getStr (b : JObj) (key : String) : Option String :=
  match b.get key with
  | some (JVal.s v) => some v
  | _ => none

/-- Numeric field of a body. -/
def getNum (b : JObj) (key : String) : Option ℚ :=
  match b.get key with
  | some (JVal.n v) => some v
  | _ => none

/-- Numeric field read as a natural id; none when absent, fractional or
negative (a fractional or negative id never matches an autoincrement key). -/
def getNat (b : JObj) (key : String) : Option Nat :=
  match b.get key with
  | some (JVal.n v) => if v.den = 1 ∧ 0 ≤ v.num then some v.num.toNat else none
  | _ => none

/-- Next autoincrement id for a table. -/
def nextId (ids : List Nat) : Nat :=
  ids.foldr (fun a b => max a b) 0 + 1

/-- Foreign-key existence of an optional customer reference. -/
def fkCustomerOk (db : Db) : Option Nat → Bool
  | none => true
  | some cid => (db.customers.find? (fun c => c.id = cid)).isSome

/-- Foreign-key existence of an optional user reference. -/
def fkUserOk (db : Db) : Option Nat → Bool
  | none => true
  | some uid => (db.users.find? (fun u => u.id = uid)).isSome

/-! ## Customer routes, routes/customers.js -/

/-- Customer.create(req.body): the body keys match the model attribute names
(name, email, phone, company, tags, notes); tags defaults to the empty list
and the name column is NOT NULL with length 2 to 255. -/
def customerRowOfBody (b : JObj) (newId now : Nat) : Except String CustomerRow :=
  match getStr b "name" with
  | none => Except.error "notNull Violation: Customer.name cannot be null"
  | some name =>
      if name.length < 2 ∨ 255 < name.length then
        Except.error "Validation len on name failed"
      else
        Except.ok
          { id := newId, name := name, email := getStr b "email",
            phone := getStr b "phone", company := getStr b "company",
            tags := (match b.get "tags" with | some (JVal.arr a) => a | _ => []),
            notes := getStr b "notes", createdAt := now }

/-- POST /api/customers: validate(customerSchema) then Customer.create; a
create failure is caught by the route and surfaced as DATABASE_ERROR with the
default 500 status. -/
def createCustomer (db : Db) (b : JObj) (now : Nat) : MResult :=
  validateThen customerCheck
    (fun db b =>
      match customerRowOfBody b (nextId (db.customers.map (fun c => c.id))) now with
      | Except.error e => plainResult (errorResponse e "DATABASE_ERROR" 500) db
      | Except.ok row =>
          plainResult (successResponse "Customer created successfully" 201)
            { db with customers := db.customers ++ [row] })
    db b

/-- customer.update(req.body): body keys that are present replace the matching
attributes, absent keys leave them unchanged. -/
def customerApplyBody (c : CustomerRow) (b : JObj) : CustomerRow :=
  { c with
    name := (getStr b "name").getD c.name,
    email := (match b.get "email" with
              | some (JVal.s v) => some v
              | some JVal.jnull => none
              | _ => c.email),
    phone := (match b.get "phone" with
              | some (JVal.s v) => some v
              | some JVal.jnull => none
              | _ => c.phone),
    company := (match b.get "company" with
                | some (JVal.s v) => some v
                | some JVal.jnull => none
                | _ => c.company),
    tags := (match b.get "tags" with | some (JVal.arr a) => a | _ => c.tags),
    notes := (match b.get "notes" with
              | some (JVal.s v) => some v
              | some JVal.jnull => none
              | _ => c.notes) }

/-- PUT /api/customers/:id: validate(customerSchema), find, 404 when absent,
else update and reply 200. -/
def updateCustomer (db : Db) (cid : Nat) (b : JObj) : MResult :=
  validateThen customerCheck
    (fun db b =>
      match db.customers.find? (fun c => c.id = cid) with
      | none => plainResult (errorResponse "Customer not found" "NOT_FOUND" 404) db
      | some _ =>
          plainResult (successResponse "Customer updated successfully" 200)
            { db with customers :=
                db.customers.map (fun x => if x.id = cid then customerApplyBody x b else x) })
    db b

/-- DELETE /api/customers/:id: find, 404 when absent, else destroy. The
destroy triggers the referential actions of the synced schema: the
associations in models/index declare no onDelete, so Sequelize derives each
action from the nullability of the foreign key. leads.customer_id and
interactions.customer_id are NOT NULL, giving ON DELETE CASCADE; the tasks
customer reference is nullable, giving ON DELETE SET NULL, so task rows
survive with their customer reference nulled out. (docs/database_schema.md
instead documents ON DELETE CASCADE for all three tables.) -/
def deleteCustomer (db : Db) (cid : Nat) : MResult :=
  match db.customers.find? (fun c => c.id = cid) with
  | none => plainResult (errorResponse "Customer not found" "NOT_FOUND" 404) db
  | some _ =>
      plainResult (successResponse "Customer deleted successfully" 200)
        { db with
          customers := db.customers.filter (fun c => c.id ≠ cid),
          leads := db.leads.filter (fun l => l.customerId ≠ cid),
          interactions := db.interactions.filter (fun i => i.customerId ≠ cid),
          tasks := db.tasks.map (fun t =>
            if t.customerId = some cid then { t with customerId := none } else t) }

/-! ## Lead routes, routes/leads.js -/

/-- Lead.create(req.body): Sequelize builds the row from the model attributes
title, description, stage, value, customer_id, assigned_to; body keys that
are not model attributes, such as the camel-case customerId declared by
leadSchema, are silently dropped. Model defaults apply (stage defaults to
lead), the NOT NULL customer_id and the foreign keys are enforced, and any
failure is thrown to the caller. -/
def leadRowOfBody (db : Db) (b : JObj) (newId now : Nat) : Except String LeadRow :=
  match getStr b "title" with
  | none => Except.error "notNull Violation: Lead.title cannot be null"
  | some title =>
      if title.length < 2 ∨ 255 < title.length then
        Except.error "Validation len on title failed"
      else
        match getNat b "customer_id" with
        | none => Except.error "notNull Violation: Lead.customer_id cannot be null"
        | some cid =>
            if (db.customers.find? (fun c => c.id = cid)).isNone then
              Except.error "SequelizeForeignKeyConstraintError: customers"
            else if (fkUserOk db (getNat b "assigned_to")) = false then
              Except.error "SequelizeForeignKeyConstraintError: users"
            else
              match (match getStr b "stage" with
                     | none => some Stage.lead
                     | some s => stageOfString s) with
              | none => Except.error "invalid input value for enum stage"
              | some st =>
                  Except.ok
                    { id := newId, title := title, description := getStr b "description",
                      stage := st, value := getNum b "value", customerId := cid,
                      assignedTo := getNat b "assigned_to",
                      createdAt := now, updatedAt := now }

/-- POST /api/leads: validate(leadSchema) then Lead.create(req.body); a create
failure is caught by the route and surfaced as DATABASE_ERROR with the
default 500 status. -/
def createLead (db : Db) (b : JObj) (now : Nat) : MResult :=
  validateThen leadCheck
    (fun db b =>
      match leadRowOfBody db b (nextId (db.leads.map (fun l => l.id))) now with
      | Except.error e => plainResult (errorResponse e "DATABASE_ERROR" 500) db
      | Except.ok row =>
          plainResult (successResponse "Lead created successfully" 201)
            { db with leads := db.leads ++ [row] })
    db b

/-- lead.update(req.body): model attributes present in the body replace the
stored values (again by the model attribute names customer_id and
assigned_to, not the camel-case schema keys). -/
def leadApplyBody (l : LeadRow) (b : JObj) (now : Nat) : LeadRow :=
  { l with
    title := (getStr b "title").getD l.title,
    description := (match b.get "description" with
                    | some (JVal.s v) => some v
                    | some JVal.jnull => none
                    | _ => l.description),
    stage := (match (getStr b "stage").bind stageOfString with
              | some st => st
              | none => l.stage),
    value := (match b.get "value" with
              | some (JVal.n q) => some q
              | some JVal.jnull => none
              | _ => l.value),
    customerId := (getNat b "customer_id").getD l.customerId,
    assignedTo := (match b.get "assigned_to" with
                   | some (JVal.n q) =>
                       if q.den = 1 ∧ 0 ≤ q.num then some q.num.toNat else l.assignedTo
                   | some JVal.jnull => none
                   | _ => l.assignedTo),
    updatedAt := now }

/-- PUT /api/leads/:id: validate(leadSchema), find, 404 when absent, else
update and reply 200. -/
def updateLead (db : Db) (lid : Nat) (b : JObj) (now : Nat) : MResult :=
  validateThen leadCheck
    (fun db b =>
      match db.leads.find? (fun l => l.id = lid) with
      | none => plainResult (errorResponse "Lead not found" "NOT_FOUND" 404) db
      | some _ =>
          plainResult (successResponse "Lead updated successfully" 200)
            { db with leads :=
                db.leads.map (fun x => if x.id = lid then leadApplyBody x b now else x) })
    db b

/-- PUT /api/leads/:id/stage: validate(updateLeadStageSchema), find the lead,
404 when absent, otherwise lead.update of the stage column alone (touching
the updated-at timestamp) and reply with the old and new stage values. -/
def updateLeadStage (db : Db) (lid : Nat) (b : JObj) (now : Nat) : MResult :=
  validateThen updateLeadStageCheck
    (fun db b =>
      match db.leads.find? (fun l => l.id = lid) with
      | none => plainResult (errorResponse "Lead not found" "NOT_FOUND" 404) db
      | some l =>
          match (getStr b "stage").bind stageOfString with
          | none => plainResult (errorResponse "invalid input value for enum stage" "DATABASE_ERROR" 500) db
          | some st =>
              { resp := successResponse "Lead stage updated successfully" 200,
                db := { db with leads := db.leads.map (fun x =>
                  if x.id = lid then { x with stage := st, updatedAt := now } else x) },
                userRep := none, oldStage := some l.stage, newStage := some st })
    db b

/-! ## Task routes, routes/tasks.js -/

/-- Task.create(req.body): unlike Lead, the Task model declares camel-case
attributes (customerId, assignedTo, dueDate) with snake-case field mappings,
so the schema keys all map onto columns; enum defaults pending and medium
apply, both references are nullable, foreign keys are enforced. -/
def taskRowOfBody (db : Db) (b : JObj) (newId now : Nat) : Except String TaskRow :=
  match getStr b "title" with
  | none => Except.error "notNull Violation: Task.title cannot be null"
  | some title =>
      if title.length < 2 ∨ 255 < title.length then
        Except.error "Validation len on title failed"
      else
        match (match getStr b "status" with
               | none => some TaskStatus.pending
               | some s => statusOfString s),
              (match getStr b "priority" with
               | none => some Priority.medium
               | some s => priorityOfString s) with
        | some st, some pr =>
            if (fkCustomerOk db (getNat b "customerId")) = false then
              Except.error "SequelizeForeignKeyConstraintError: customers"
            else if (fkUserOk db (getNat b "assignedTo")) = false then
              Except.error "SequelizeForeignKeyConstraintError: users"
            else
              Except.ok
                { id := newId, title := title, description := getStr b "description",
                  status := st, priority := pr, dueDate := getNat b "dueDate",
                  assignedTo := getNat b "assignedTo", customerId := getNat b "customerId",
                  createdAt := now, updatedAt := now }
        | _, _ => Except.error "invalid input value for enum"

/-- POST /api/tasks: validate(taskSchema) then Task.create. -/
def createTask (db : Db) (b : JObj) (now : Nat) : MResult :=
  validateThen taskCheck
    (fun db b =>
      match taskRowOfBody db b (nextId (db.tasks.map (fun t => t.id))) now with
      | Except.error e => plainResult (errorResponse e "DATABASE_ERROR" 500) db
      | Except.ok row =>
          plainResult (successResponse "Task created successfully" 201)
            { db with tasks := db.tasks ++ [row] })
    db b

/-- task.update(req.body): attributes present in the body replace the stored
values. -/
def taskApplyBody (t : TaskRow) (b : JObj) (now : Nat) : TaskRow :=
  { t with
    title := (getStr b "title").getD t.title,
    description := (match b.get "description" with
                    | some (JVal.s v) => some v
                    | some JVal.jnull => none
                    | _ => t.description),
    status := (match (getStr b "status").bind statusOfString with
               | some st => st
               | none => t.status),
    priority := (match (getStr b "priority").bind priorityOfString with
                 | some pr => pr
                 | none => t.priority),
    dueDate := (match b.get "dueDate" with
                | some (JVal.n q) =>
                    if q.den = 1 ∧ 0 ≤ q.num then some q.num.toNat else t.dueDate
                | some JVal.jnull => none
                | _ => t.dueDate),
    assignedTo := (match b.get "assignedTo" with
                   | some (JVal.n q) =>
                       if q.den = 1 ∧ 0 ≤ q.num then some q.num.toNat else t.assignedTo
                   | some JVal.jnull => none
                   | _ => t.assignedTo),
    customerId := (match b.get "customerId" with
                   | some (JVal.n q) =>
                       if q.den = 1 ∧ 0 ≤ q.num then some q.num.toNat else t.customerId
                   | some JVal.jnull => none
                   | _ => t.customerId),
    updatedAt := now }

/-- PUT /api/tasks/:id: validate(taskSchema), find, 404 when absent, else
update and reply 200. -/
def updateTask (db : Db) (tid : Nat) (b : JObj) (now : Nat) : MResult :=
  validateThen taskCheck
    (fun db b =>
      match db.tasks.find? (fun t => t.id = tid) with
      | none => plainResult (errorResponse "Task not found" "NOT_FOUND" 404) db
      | some _ =>
          plainResult (successResponse "Task updated successfully" 200)
            { db with tasks :=
                db.tasks.map (fun x => if x.id = tid then taskApplyBody x b now else x) })
    db b

/-- PUT /api/tasks/:id/status: validate(updateTaskStatusSchema), find, 404
when absent, else update only the status column and reply 200. -/
def updateTaskStatus (db : Db) (tid : Nat) (b : JObj) (now : Nat) : MResult :=
  validateThen updateTaskStatusCheck
    (fun db b =>
      match db.tasks.find? (fun t => t.id = tid) with
      | none => plainResult (errorResponse "Task not found" "NOT_FOUND" 404) db
      | some _ =>
          match (getStr b "status").bind statusOfString with
          | none => plainResult (errorResponse "invalid input value for enum status" "DATABASE_ERROR" 500) db
          | some st =>
              plainResult (successResponse "Task status updated successfully" 200)
                { db with tasks := db.tasks.map (fun x =>
                    if x.id = tid then { x with status := st, updatedAt := now } else x) })
    db b

/-! ## Interaction routes, routes/interactions.js -/

/-- POST /api/interactions: validate(interactionSchema), verify the customer
exists (404 otherwise), then Interaction.create with the explicit mapping of
body customerId to the customer_id column and the principal id to
created_by. -/
def createInteraction (db : Db) (requesterId : Nat) (b : JObj) (now : Nat) : MResult :=
  validateThen interactionCheck
    (fun db b =>
      match getNat b "customerId" with
      | none => plainResult (errorResponse "Customer not found" "NOT_FOUND" 404) db
      | some cid =>
          match db.customers.find? (fun c => c.id = cid) with
          | none => plainResult (errorResponse "Customer not found" "NOT_FOUND" 404) db
          | some _ =>
              match (getStr b "type").bind interTypeOfString with
              | none => plainResult (errorResponse "invalid input value for enum type" "DATABASE_ERROR" 500) db
              | some ty =>
                  plainResult (successResponse "Interaction created successfully" 201)
                    { db with interactions := db.interactions ++
                        [ { id := nextId (db.interactions.map (fun i => i.id)),
                            customerId := cid, type := ty, notes := getStr b "notes",
                            date := (getNat b "date").getD now,
                            createdBy := some requesterId } ] })
    db b

/-! ## Pagination and list routes -/

/-- Pagination block repeated by every list route. -/
structure Pagination where
  page : Nat
  limit : Nat
  total : Nat
  pages : Nat
  deriving DecidableEq, Repr

/-- Math.ceil(total div limit) over naturals, the pages computation of every
list route. -/
def totalPages (total limit : Nat) : Nat :=
  (total + limit - 1) / limit

/-- One page of rows: offset (page - 1) times limit, then limit rows. -/
def pageSlice (rows : List α) (limit page : Nat) : List α :=
  (rows.drop ((page - 1) * limit)).take limit

/-- Insertion step of the fixed row ordering. -/
def insertBy (r : α → α → Bool) (x : α) : List α → List α
  | [] => [x]
  | y :: ys => if r x y then x :: y :: ys else y :: insertBy r x ys

/-- Insertion sort by a boolean precedence, the embedding of the order clause
of findAndCountAll. -/
def sortRowsBy (r : α → α → Bool) : List α → List α
  | [] => []
  | x :: xs => insertBy r x (sortRowsBy r xs)

/-- Case-insensitive substring match, Op.iLike with surrounding wildcards. -/
def containsCI (hay needle : String) : Bool :=
  (List.range (hay.toLower.data.length + 1)).any
    (fun i => List.isPrefixOf needle.toLower.data (hay.toLower.data.drop i))

/-- Query parameters of GET /api/leads that the embedding models: the stage
equality filter. (The customerId and assignedTo query filters of the source
build a where clause on attributes the Lead model does not declare, the
model names being customer_id and assigned_to, so those two filters fail at
the SQL layer in the running code; they are omitted here and play no part in
the pagination contract.) -/
def leadWhere (stage? : Option Stage) (l : LeadRow) : Bool :=
  match stage? with
  | none => true
  | some s => decide (l.stage = s)

/-- All leads matching the stage filter in the fixed response order, creation
time descending. -/
def listLeadsAll (db : Db) (stage? : Option Stage) : List LeadRow :=
  sortRowsBy (fun a b => decide (b.createdAt ≤ a.createdAt))
    (db.leads.filter (leadWhere stage?))

/-- GET /api/leads: one page of the ordered matching rows plus the pagination
block built by the route. -/
def listLeads (db : Db) (stage? : Option Stage) (page limit : Nat) :
    List LeadRow × Pagination :=
  (pageSlice (listLeadsAll db stage?) limit page,
   { page := page, limit := limit, total := (listLeadsAll db stage?).length,
     pages := totalPages (listLeadsAll db stage?).length limit })

/-- Query parameters of GET /api/customers: free-text search OR-ed over name,
email and company with case-insensitive substring match, and the tag overlap
filter. (Op.overlap is embedded with its documented overlap meaning; on this
model the tags column is TEXT, which the array operator of the source would
reject at the SQL layer.) -/
def customerWhere (search? : Option String) (tags? : Option (List String))
    (c : CustomerRow) : Bool :=
  (match search? with
   | none => true
   | some s =>
       containsCI c.name s || containsCI (c.email.getD "") s ||
         containsCI (c.company.getD "") s) &&
  (match tags? with
   | none => true
   | some ts => c.tags.any (fun t => ts.contains t))

/-- All customers matching the filters in the fixed response order, creation
time descending. -/
def listCustomersAll (db : Db) (search? : Option String)
    (tags? : Option (List String)) : List CustomerRow :=
  sortRowsBy (fun a b => decide (b.createdAt ≤ a.createdAt))
    (db.customers.filter (customerWhere search? tags?))

/-- GET /api/customers: one page of the ordered matching rows plus the
pagination block built by the route. -/
def listCustomers (db : Db) (search? : Option String)
    (tags? : Option (List String)) (page limit : Nat) :
    List CustomerRow × Pagination :=
  (pageSlice (listCustomersAll db search? tags?) limit page,
   { page := page, limit := limit,
     total := (listCustomersAll db search? tags?).length,
     pages := totalPages (listCustomersAll db search? tags?).length limit })

/-! ## User routes, routes/users.js and routes/auth.js -/

/-- GET /api/users: ordered by creation time descending, paginated, each row
serialized with the password attribute excluded at the query level. -/
def listUsers (db : Db) (page limit : Nat) : List JObj × Pagination :=
  ((pageSlice (sortRowsBy (fun a b => decide (b.createdAt ≤ a.createdAt)) db.users)
      limit page).map excludePasswordAttributes,
   { page := page, limit := limit, total := db.users.length,
     pages := totalPages db.users.length limit })

/-- The users router stacks authenticateToken then requireAdmin before every
handler; this is the GET /api/users pipeline from a resolved principal. -/
def listUsersEndpoint (db : Db) (principal : Option UserRow) (page limit : Nat) :
    Except Response (List JObj × Pagination) :=
  match requireAdmin principal with
  | some e => Except.error e
  | none => Except.ok (listUsers db page limit)

/-- GET /api/users/:id: find with the password attribute excluded, 404 when
absent. -/
def getUserById (db : Db) (uid : Nat) : MResult :=
  match db.users.find? (fun u => u.id = uid) with
  | none => plainResult (errorResponse "User not found" "NOT_FOUND" 404) db
  | some u =>
      { resp := successResponse "Success" 200, db := db,
        userRep := some (excludePasswordAttributes u), oldStage := none, newStage := none }

/-- The Sequelize model validations that run inside user.update: name length
2 to 255, email shape, role restricted to the enum; the first failure is
thrown as a validation error. -/
def userModelCheck (name email : String) (roleStr : Option String) : Option String :=
  if name.length < 2 ∨ 255 < name.length then some "Validation len on name failed"
  else if isEmailLike email = false then some "Validation isEmail on email failed"
  else
    match roleStr with
    | none => none
    | some r =>
        if r = "admin" ∨ r = "user" then none
        else some "invalid input value for enum role"

/-- PUT /api/users/:id: no validate middleware is declared on this route; the
handler destructures name, email and role from the raw body and passes them
to user.update, so the only checks that run are the Sequelize model
validations inside the persistence call, and a failure there is caught by
the route and surfaced as DATABASE_ERROR with the default 500 status. -/
def updateUser (db : Db) (uid : Nat) (b : JObj) : MResult :=
  match db.users.find? (fun u => u.id = uid) with
  | none => plainResult (errorResponse "User not found" "NOT_FOUND" 404) db
  | some u =>
      let name := (getStr b "name").getD u.name
      let email := (getStr b "email").getD u.email
      match userModelCheck name email (getStr b "role") with
      | some msg => plainResult (errorResponse msg "DATABASE_ERROR" 500) db
      | none =>
          let role :=
            match getStr b "role" with
            | some "admin" => Role.admin
            | some _ => Role.user
            | none => u.role
          let u2 := { u with name := name, email := email, role := role }
          { resp := successResponse "User updated successfully" 200,
            db := { db with users := db.users.map (fun x => if x.id = uid then u2 else x) },
            userRep := some (toJSONUser u2), oldStage := none, newStage := none }

/-- DELETE /api/users/:id: the self-delete guard runs before the lookup
(parseInt(id) compared with the principal id); deleting a user nulls out the
nullable references held by leads.assigned_to, tasks.assigned_to and
interactions.created_by (ON DELETE SET NULL, the Sequelize default for
nullable foreign keys). -/
def deleteUser (db : Db) (requester : UserRow) (targetId : Nat) : MResult :=
  if targetId = requester.id then
    plainResult (errorResponse "Cannot delete your own account" "VALIDATION_ERROR" 400) db
  else
    match db.users.find? (fun u => u.id = targetId) with
    | none => plainResult (errorResponse "User not found" "NOT_FOUND" 404) db
    | some _ =>
        plainResult (successResponse "User deleted successfully" 200)
          { db with
            users := db.users.filter (fun u => u.id ≠ targetId),
            leads := db.leads.map (fun l =>
              if l.assignedTo = some targetId then { l with assignedTo := none } else l),
            tasks := db.tasks.map (fun t =>
              if t.assignedTo = some targetId then { t with assignedTo := none } else t),
            interactions := db.interactions.map (fun i =>
              if i.createdBy = some targetId then { i with createdBy := none } else i) }

/-- DELETE /api/users/:id behind the router middleware stack, from a resolved
principal. -/
def deleteUserEndpoint (db : Db) (principal : Option UserRow) (targetId : Nat) : MResult :=
  match principal with
  | none => plainResult (errorResponse "Authentication required" "AUTHENTICATION_ERROR" 401) db
  | some u =>
      match requireAdmin (some u) with
      | some e => plainResult e db
      | none => deleteUser db u targetId

/-- POST /api/auth/register: validate(registerSchema), duplicate email check
(409 DUPLICATE_ENTRY), then User.create whose beforeCreate hook hashes the
password; replies 201 with user.toJSON(). -/
def registerUser (db : Db) (b : JObj) (now : Nat) : MResult :=
  validateThen registerCheck
    (fun db b =>
      match getStr b "email", getStr b "name", getStr b "password" with
      | some email, some name, some password =>
          if (db.users.find? (fun u => u.email = email)).isSome then
            plainResult (errorResponse "User with this email already exists" "DUPLICATE_ENTRY" 409) db
          else
            let role :=
              match getStr b "role" with
              | some "admin" => Role.admin
              | _ => Role.user
            let newUser : UserRow :=
              { id := nextId (db.users.map (fun u => u.id)), name := name,
                email := email, password := bcryptHash password, role := role,
                createdAt := now }
            { resp := successResponse "User registered successfully" 201,
              db := { db with users := db.users ++ [newUser] },
              userRep := some (toJSONUser newUser), oldStage := none, newStage := none }
      | _, _, _ => plainResult (errorResponse "notNull Violation" "DATABASE_ERROR" 500) db)
    db b

/-- POST /api/auth/login: validate(loginSchema), find the user by email (401
Invalid credentials when absent), bcrypt comparison (401 on mismatch), then
200 with user.toJSON() and a fresh token. -/
def loginUser (db : Db) (b : JObj) : MResult :=
  validateThen loginCheck
    (fun db b =>
      match getStr b "email", getStr b "password" with
      | some email, some password =>
          match db.users.find? (fun u => u.email = email) with
          | none => plainResult (errorResponse "Invalid credentials" "AUTHENTICATION_ERROR" 401) db
          | some u =>
              if u.password = bcryptHash password then
                { resp := successResponse "Login successful" 200, db := db,
                  userRep := some (toJSONUser u), oldStage := none, newStage := none }
              else
                plainResult (errorResponse "Invalid credentials" "AUTHENTICATION_ERROR" 401) db
      | _, _ => plainResult (errorResponse "Invalid credentials" "AUTHENTICATION_ERROR" 401) db)
    db b

/-- GET /api/auth/me: replies with req.user.toJSON() for the resolved
principal. -/
def getMe (db : Db) (u : UserRow) : MResult :=
  { resp := successResponse "Success" 200, db := db,
    userRep := some (toJSONUser u), oldStage := none, newStage := none }

/-! ## Reporting, routes/reports.js and the stats route of routes/leads.js -/

/-- Rounding to two decimal places as performed by
parseFloat(x.toFixed(2)): nearest hundredth, ties away from zero, which for
the non-negative rates at hand is floor(100 x + one half) over 100. -/
def toFixed2 (q : ℚ) : ℚ :=
  ((Int.floor (q * 100 + 1 / 2) : ℤ) : ℚ) / 100

/-- The grouped stage counts of GET /api/leads/stats/overview: one row per
stage value present, with the count of leads in that stage (COUNT grouped by
stage). -/
def stageStats (leads : List LeadRow) : List (Stage × Nat) :=
  ((leads.map (fun l => l.stage)).dedup).map
    (fun s => (s, (leads.filter (fun l => l.stage = s)).length))

/-- totalLeads of the overview route: the stage counts summed with reduce. -/
def overviewTotalLeads (leads : List LeadRow) : Nat :=
  ((stageStats leads).map (fun p => p.2)).sum

/-- closedLeads of the overview route: the count of the closed group when the
find succeeds, 0 otherwise. -/
def overviewClosedLeads (leads : List LeadRow) : Nat :=
  match (stageStats leads).find? (fun p => p.1 = Stage.closed) with
  | some p => p.2
  | none => 0

/-- conversionRate of GET /api/leads/stats/overview:
(closed over total) times 100 when the total is positive, 0 otherwise, then
parseFloat(toFixed(2)). -/
def overviewConversionRate (leads : List LeadRow) : ℚ :=
  toFixed2
    (if 0 < overviewTotalLeads leads then
      ((overviewClosedLeads leads : ℚ) / (overviewTotalLeads leads : ℚ)) * 100
    else 0)

/-- The lead aggregates of GET /api/reports/dashboard and
GET /api/reports/dashboard-stats: COUNT of all leads and COUNT of leads in
the closed stage, in one pass. -/
def dashboardTotalLeads (leads : List LeadRow) : Nat :=
  leads.length

/-- COUNT of the CASE WHEN stage = closed branch. -/
def dashboardClosedLeads (leads : List LeadRow) : Nat :=
  (leads.filter (fun l => l.stage = Stage.closed)).length

/-- conversionRate of both dashboard routes: (closed over total) times 100
when the total is positive, 0 otherwise, then parseFloat(toFixed(2)). -/
def dashboardConversionRate (leads : List LeadRow) : ℚ :=
  toFixed2
    (if 0 < dashboardTotalLeads leads then
      ((dashboardClosedLeads leads : ℚ) / (dashboardTotalLeads leads : ℚ)) * 100
    else 0)

/-- One row of the GET /api/reports/conversion response: a period bucket with
its lead count, closed count and rounded rate. -/
structure ConvBucket where
  period : Nat
  leadsCount : Nat
  closedCount : Nat
  rate : ℚ
  deriving DecidableEq, Repr

/-- The grouped query of GET /api/reports/conversion: leads created inside
the trailing window, grouped by the truncated period (DATE_TRUNC abstracted
into a period key function), ordered by period ascending; each group carries
its COUNT and its closed COUNT. -/
def conversionGroups (leads : List LeadRow) (periodOf : LeadRow → Nat)
    (windowStart : Nat) : List (Nat × Nat × Nat) :=
  (sortRowsBy (fun a b => decide (a ≤ b))
      (((leads.filter (fun l => windowStart ≤ l.createdAt)).map periodOf).dedup)).map
    (fun p =>
      (p,
       ((leads.filter (fun l => windowStart ≤ l.createdAt)).filter
          (fun l => periodOf l = p)).length,
       (((leads.filter (fun l => windowStart ≤ l.createdAt)).filter
          (fun l => periodOf l = p)).filter (fun l => l.stage = Stage.closed)).length))

/-- conversionRates of GET /api/reports/conversion: per bucket, the rounded
rate when the bucket has leads, 0 otherwise. -/
def conversionRates (leads : List LeadRow) (periodOf : LeadRow → Nat)
    (windowStart : Nat) : List ConvBucket :=
  (conversionGroups leads periodOf windowStart).map
    (fun g =>
      { period := g.1, leadsCount := g.2.1, closedCount := g.2.2,
        rate :=
          if 0 < g.2.1 then toFixed2 (((g.2.2 : ℚ) / (g.2.1 : ℚ)) * 100)
          else 0 })

/-- totalLeads of GET /api/reports/conversion: the bucket lead counts summed
with reduce. -/
def conversionTotalLeads (leads : List LeadRow) (periodOf : LeadRow → Nat)
    (windowStart : Nat) : Nat :=
  ((conversionRates leads periodOf windowStart).map (fun b => b.leadsCount)).sum

/-- totalClosed of GET /api/reports/conversion: the bucket closed counts
summed with reduce. -/
def conversionTotalClosed (leads : List LeadRow) (periodOf : LeadRow → Nat)
    (windowStart : Nat) : Nat :=
  ((conversionRates leads periodOf windowStart).map (fun b => b.closedCount)).sum

/-- averageRate of GET /api/reports/conversion: the same guarded rounded rate
over the summed totals. -/
def conversionAverageRate (leads : List LeadRow) (periodOf : LeadRow → Nat)
    (windowStart : Nat) : ℚ :=
  if 0 < conversionTotalLeads leads periodOf windowStart then
    toFixed2
      (((conversionTotalClosed leads periodOf windowStart : ℚ) /
        (conversionTotalLeads leads periodOf windowStart : ℚ)) * 100)
  else 0

/-- Modelled from the spec: the conversion rate contract, rate equal to 0
when the total lead count is 0 and round(C over T times 100, 2) otherwise,
with C the count of leads in the closed stage among the leads the endpoint
aggregates over. The code-side rate computations are proved equal to this. -/
def specConversionRate (leads : List LeadRow) : ℚ :=
  if leads.length = 0 then 0
  else
    toFixed2
      (((leads.filter (fun l => l.stage = Stage.closed)).length : ℚ) /
        (leads.length : ℚ) * 100)

/-! ## Generic lemmas: sorting is a permutation -/

theorem insertBy_perm (r : α → α → Bool) (x : α) :
    ∀ l : List α, (insertBy r x l).Perm (x :: l) := by
  intro l
  induction l with
  | nil => simp [insertBy]
  | cons y ys ih =>
      by_cases h : r x y
      · simp [insertBy, h]
      · simp only [insertBy, h, if_neg]
        exact (List.Perm.cons y ih).trans (List.Perm.swap x y ys)

theorem sortRowsBy_perm (r : α → α → Bool) :
    ∀ l : List α, (sortRowsBy r l).Perm l := by
  intro l
  induction l with
  | nil => simp [sortRowsBy]
  | cons x xs ih =>
      exact (insertBy_perm r x (sortRowsBy r xs)).trans (List.Perm.cons x ih)

/-! ## Generic lemmas: grouped counts partition a list -/

theorem length_filter_key_sum {α κ : Type} [DecidableEq κ] (k : α → κ) :
    ∀ (ks : List κ) (l : List α), (∀ x ∈ l, k x ∈ ks) → ks.Nodup →
      ((ks.map (fun v => (l.filter (fun x => k x = v)).length)).sum = l.length) := by
  intro ks
  induction ks with
  | nil =>
      intro l hmem _
      have : l = [] := by
        cases l with
        | nil => rfl
        | cons a as => exact absurd (hmem a (List.mem_cons_self a as)) (List.not_mem_nil _)
      simp [this]
  | cons v vs ih =>
      intro l hmem hnd
      have hnd2 : vs.Nodup := (List.nodup_cons.mp hnd).2
      have hv : v ∉ vs := (List.nodup_cons.mp hnd).1
      have hsplit := List.length_eq_length_filter_add (l := l) (fun x => decide (k x = v))
      have hmem2 : ∀ x ∈ l.filter (fun x => !decide (k x = v)), k x ∈ vs := by
        intro x hx
        have hx1 : x ∈ l := List.mem_of_mem_filter hx
        have hx2 : ¬ (k x = v) := by
          have := List.of_mem_filter hx
          simpa using this
        have := hmem x hx1
        cases List.mem_cons.mp this with
        | inl h => exact absurd h hx2
        | inr h => exact h
      have hrec := ih (l.filter (fun x => !decide (k x = v))) hmem2 hnd2
      have hcongr :
          vs.map (fun u =>
              ((l.filter (fun x => !decide (k x = v))).filter (fun x => k x = u)).length) =
            vs.map (fun u => (l.filter (fun x => k x = u)).length) := by
        apply List.map_congr_left
        intro u hu
        have huv : u ≠ v := by
          intro h
          exact hv (h ▸ hu)
        congr 1
        rw [List.filter_filter]
        apply List.filter_congr
        intro x _
        by_cases hk : k x = u
        · simp [hk, huv]
        · simp [hk]
      rw [hcongr] at hrec
      simp only [List.map_cons, List.sum_cons]
      omega

theorem find_grouped_counts {κ : Type} [DecidableEq κ] (f : κ → Nat) (v : κ) :
    ∀ ks : List κ, v ∈ ks →
      (ks.map (fun u => (u, f u))).find? (fun p => p.1 = v) = some (v, f v) := by
  intro ks
  induction ks with
  | nil => intro h; exact absurd h (List.not_mem_nil v)
  | cons u us ih =>
      intro h
      by_cases huv : u = v
      · subst huv
        simp [List.find?]
      · have hv : v ∈ us := by
          cases List.mem_cons.mp h with
          | inl h1 => exact absurd h1.symm huv
          | inr h1 => exact h1
        simp only [List.map_cons, List.find?]
        have : (decide (u = v)) = false := by simp [huv]
        rw [this]
        exact ih hv

theorem find_grouped_counts_none {κ : Type} [DecidableEq κ] (f : κ → Nat) (v : κ) :
    ∀ ks : List κ, v ∉ ks →
      (ks.map (fun u => (u, f u))).find? (fun p => p.1 = v) = none := by
  intro ks
  induction ks with
  | nil => intro _; rfl
  | cons u us ih =>
      intro h
      have huv : ¬ (u = v) := fun h1 => h (h1 ▸ List.mem_cons_self u us)
      have hus : v ∉ us := fun h1 => h (List.mem_cons_of_mem u h1)
      simp only [List.map_cons, List.find?]
      have : (decide (u = v)) = false := by simp [huv]
      rw [this]
      exact ih hus

/-! ## Generic lemmas: pagination -/

theorem totalPages_zero (L : Nat) : totalPages 0 L = 0 := by
  unfold totalPages
  cases L with
  | zero => rfl
  | succ n =>
      apply Nat.div_eq_of_lt
      omega

theorem totalPages_succ (N L : Nat) (hL : 1 ≤ L) (hN : 1 ≤ N) :
    totalPages N L = totalPages (N - L) L + 1 := by
  unfold totalPages
  have hA : N + L - 1 = (N - 1) + L := by omega
  rw [hA, Nat.add_div_right _ (by omega : 0 < L)]
  by_cases hcase : N ≤ L
  · have h1 : N - L = 0 := by omega
    rw [h1]
    have h2 : (0 + L - 1) / L = 0 := Nat.div_eq_of_lt (by omega)
    have h3 : (N - 1) / L = 0 := Nat.div_eq_of_lt (by omega)
    rw [h2, h3]
  · have h1 : N - L + L - 1 = N - 1 := by omega
    rw [h1]

theorem join_pageSlices {α : Type} (L : Nat) (hL : 1 ≤ L) :
    ∀ (n : Nat) (rows : List α), rows.length ≤ n →
      ((List.range (totalPages rows.length L)).map
        (fun i => pageSlice rows L (i + 1))).flatten = rows := by
  intro n
  induction n with
  | zero =>
      intro rows h
      have : rows = [] := List.eq_nil_of_length_eq_zero (Nat.le_zero.mp h)
      subst this
      simp [totalPages_zero]
  | succ n ih =>
      intro rows h
      cases rows with
      | nil => simp [totalPages_zero]
      | cons x xs =>
          have hN : 1 ≤ (x :: xs).length := by simp
          rw [totalPages_succ _ L hL hN, List.range_succ_eq_map, List.map_cons,
            List.flatten_cons, List.map_map]
          have hhead : pageSlice (x :: xs) L 1 = (x :: xs).take L := by
            simp [pageSlice]
          have hfun :
              ((fun i => pageSlice (x :: xs) L (i + 1)) ∘ Nat.succ) =
                fun i => pageSlice ((x :: xs).drop L) L (i + 1) := by
            funext i
            simp only [Function.comp, pageSlice, List.drop_drop]
            congr 2
            simp only [Nat.succ_eq_add_one, Nat.add_sub_cancel]
            ring
          have hlen : ((x :: xs).drop L).length = (x :: xs).length - L := by
            simp
          have hrec := ih ((x :: xs).drop L) (by
            rw [hlen]
            simp only [List.length_cons] at h ⊢
            omega)
          rw [hhead, hfun, ← hlen, hrec]
          exact List.take_append_drop L (x :: xs)

theorem totalPages_mul_ge (N L : Nat) (hL : 1 ≤ L) : N ≤ totalPages N L * L := by
  have hdm := Nat.div_add_mod (N + L - 1) L
  have hmod : (N + L - 1) % L < L := Nat.mod_lt _ (by omega)
  have hc : totalPages N L * L = L * ((N + L - 1) / L) := by
    unfold totalPages
    ring
  omega

theorem totalPages_mul_lt (N L : Nat) (hL : 1 ≤ L) : totalPages N L * L < N + L := by
  have hdm := Nat.div_add_mod (N + L - 1) L
  have hmod : (N + L - 1) % L < L := Nat.mod_lt _ (by omega)
  have hc : totalPages N L * L = L * ((N + L - 1) / L) := by
    unfold totalPages
    ring
  omega

theorem totalPages_eq_ceil (N L : Nat) (hL : 1 ≤ L) :
    (totalPages N L : ℤ) = Int.ceil ((N : ℚ) / (L : ℚ)) := by
  have hL0 : (0 : ℚ) < (L : ℚ) := by
    exact_mod_cast Nat.lt_of_lt_of_le Nat.zero_lt_one hL
  symm
  rw [Int.ceil_eq_iff]
  constructor
  · rw [lt_div_iff₀ hL0]
    have h2 : totalPages N L * L < N + L := totalPages_mul_lt N L hL
    have h2q : ((totalPages N L : ℚ)) * (L : ℚ) < (N : ℚ) + (L : ℚ) := by
      exact_mod_cast h2
    push_cast
    nlinarith
  · rw [div_le_iff₀ hL0]
    have h1 : N ≤ totalPages N L * L := totalPages_mul_ge N L hL
    exact_mod_cast h1

/-! ## Concrete fixtures used by the claim theorems -/

/-- A concrete customer owning one lead, one task and one interaction. -/
def c1Customer : CustomerRow :=
  { id := 1, name := "Acme Corporation", email := some "contact@acme.com",
    phone := none, company := some "Acme Corp", tags := [], notes := none,
    createdAt := 10 }

/-- A concrete lead of customer 1. -/
def c1Lead : LeadRow :=
  { id := 1, title := "Enterprise Software Deal", description := none,
    stage := Stage.qualified, value := some 50000, customerId := 1,
    assignedTo := none, createdAt := 11, updatedAt := 11 }

/-- A concrete task linked to customer 1. -/
def c1Task : TaskRow :=
  { id := 1, title := "Follow up with Acme Corp", description := none,
    status := TaskStatus.pending, priority := Priority.high, dueDate := some 20,
    assignedTo := none, customerId := some 1, createdAt := 12, updatedAt := 12 }

/-- A concrete interaction of customer 1. -/
def c1Interaction : InteractionRow :=
  { id := 1, customerId := 1, type := InterType.call, notes := none,
    date := 13, createdBy := none }

/-- Database holding customer 1 together with its dependent rows. -/
def c1Db : Db :=
  { users := [], customers := [c1Customer], leads := [c1Lead],
    tasks := [c1Task], interactions := [c1Interaction] }

/-- Database holding only customer 1. -/
def c2Db : Db :=
  { users := [], customers := [c1Customer], leads := [], tasks := [],
    interactions := [] }

/-- The create-lead request body of the spec scenario: title Deal and the
customer reference under the customerId key declared by leadSchema. -/
def c2Body : JObj :=
  [("title", JVal.s "Deal"), ("customerId", JVal.n 1)]

/-- A concrete admin principal. -/
def c3Admin : UserRow :=
  { id := 1, name := "Admin User", email := "admin@crm.com",
    password := bcryptHash "admin123", role := Role.admin, createdAt := 1 }

/-- A concrete non-admin principal. -/
def c7User : UserRow :=
  { id := 2, name := "Regular User", email := "user@crm.com",
    password := bcryptHash "user123", role := Role.user, createdAt := 2 }

/-- Database holding the two concrete users. -/
def c3Db : Db :=
  { users := [c3Admin, c7User], customers := [], leads := [], tasks := [],
    interactions := [] }

/-! ## Claim theorems -/

/-- C1: deleting customer 1 removes the customer and cascades its lead and
its interaction, but it does not remove the dependent task: the task
customer reference is nullable, so the schema generated from the models
carries ON DELETE SET NULL for tasks, and the task row survives with its
customer reference nulled out. The claim (and docs/database_schema.md, which
declares ON DELETE CASCADE for tasks.customer_id) says the task row is
removed as well. -/
theorem C1_cascade_keeps_task_rows :
    (deleteCustomer c1Db 1).resp.status = 200 ∧
    (deleteCustomer c1Db 1).db.customers = [] ∧
    (deleteCustomer c1Db 1).db.leads = [] ∧
    (deleteCustomer c1Db 1).db.interactions = [] ∧
    (deleteCustomer c1Db 1).db.tasks = [{ c1Task with customerId := none }] ∧
    (deleteCustomer c1Db 1).db.tasks ≠ [] := by
  refine ⟨rfl, rfl, rfl, rfl, rfl, ?_⟩
  decide

/-- C2: the create-lead request of the scenario, title Deal plus the
customerId of an existing customer, is accepted by leadSchema but does not
reply 201: the Lead model names its customer attribute customer_id, so
Lead.create silently drops the customerId body key, the NOT NULL customer
reference is violated inside the persistence call, and the route surfaces
the caught error as 500 DATABASE_ERROR with no lead row created. The claim
(and the repository API reference, which documents exactly this request
body for POST /leads) expects 201 with the default stage. -/
theorem C2_create_lead_with_customerId_fails :
    leadCheck c2Body = none ∧
    (createLead c2Db c2Body 5).resp.status = 500 ∧
    (createLead c2Db c2Body 5).resp.code = some "DATABASE_ERROR" ∧
    (createLead c2Db c2Body 5).resp.errMsg =
      some "notNull Violation: Lead.customer_id cannot be null" ∧
    (createLead c2Db c2Body 5).db = c2Db := by
  exact ⟨rfl, rfl, rfl, rfl, rfl⟩

/-- C3 counterexample: PUT /api/users/:id is a mutating endpoint (the user
update), yet its route declares no validation schema, and a body violating
the user constraints (a one-character name) is not rejected with 400
VALIDATION_ERROR before persistence: it reaches the persistence call, whose
model-validation failure the route surfaces as 500 DATABASE_ERROR. -/
theorem C3_user_update_has_no_schema :
    declaredSchema MutatingEndpoint.updateUser = none ∧
    (updateUser c3Db 1 [("name", JVal.s "X")]).resp.status = 500 ∧
    (updateUser c3Db 1 [("name", JVal.s "X")]).resp.code = some "DATABASE_ERROR" ∧
    (updateUser c3Db 1 [("name", JVal.s "X")]).resp.status ≠ 400 ∧
    (updateUser c3Db 1 [("name", JVal.s "X")]).db = c3Db := by
  refine ⟨rfl, rfl, rfl, ?_, rfl⟩
  decide

/-- C3 amended: every mutating endpoint except PUT /api/users/:id runs its
declared Joi schema before any persistence step; on the first violation it
replies 400 VALIDATION_ERROR carrying that first failure message verbatim
and leaves the stored state unchanged. PUT /api/users/:id declares no
schema. -/
theorem C3_validation_before_persistence :
    (∀ db b now msg, registerCheck b = some msg →
       registerUser db b now = plainResult (errorResponse msg "VALIDATION_ERROR" 400) db) ∧
    (∀ db b now msg, customerCheck b = some msg →
       createCustomer db b now = plainResult (errorResponse msg "VALIDATION_ERROR" 400) db) ∧
    (∀ db cid b msg, customerCheck b = some msg →
       updateCustomer db cid b = plainResult (errorResponse msg "VALIDATION_ERROR" 400) db) ∧
    (∀ db b now msg, leadCheck b = some msg →
       createLead db b now = plainResult (errorResponse msg "VALIDATION_ERROR" 400) db) ∧
    (∀ db lid b now msg, leadCheck b = some msg →
       updateLead db lid b now = plainResult (errorResponse msg "VALIDATION_ERROR" 400) db) ∧
    (∀ db lid b now msg, updateLeadStageCheck b = some msg →
       updateLeadStage db lid b now = plainResult (errorResponse msg "VALIDATION_ERROR" 400) db) ∧
    (∀ db b now msg, taskCheck b = some msg →
       createTask db b now = plainResult (errorResponse msg "VALIDATION_ERROR" 400) db) ∧
    (∀ db tid b now msg, taskCheck b = some msg →
       updateTask db tid b now = plainResult (errorResponse msg "VALIDATION_ERROR" 400) db) ∧
    (∀ db tid b now msg, updateTaskStatusCheck b = some msg →
       updateTaskStatus db tid b now = plainResult (errorResponse msg "VALIDATION_ERROR" 400) db) ∧
    (∀ db rid b now msg, interactionCheck b = some msg →
       createInteraction db rid b now = plainResult (errorResponse msg "VALIDATION_ERROR" 400) db) ∧
    declaredSchema MutatingEndpoint.updateUser = none := by
  refine ⟨?_, ?_, ?_, ?_, ?_, ?_, ?_, ?_, ?_, ?_, rfl⟩
  · intro db b now msg h
    simp only [registerUser, validateThen, h]
  · intro db b now msg h
    simp only [createCustomer, validateThen, h]
  · intro db cid b msg h
    simp only [updateCustomer, validateThen, h]
  · intro db b now msg h
    simp only [createLead, validateThen, h]
  · intro db lid b now msg h
    simp only [updateLead, validateThen, h]
  · intro db lid b now msg h
    simp only [updateLeadStage, validateThen, h]
  · intro db b now msg h
    simp only [createTask, validateThen, h]
  · intro db tid b now msg h
    simp only [updateTask, validateThen, h]
  · intro db tid b now msg h
    simp only [updateTaskStatus, validateThen, h]
  · intro db rid b now msg h
    simp only [createInteraction, validateThen, h]

/-- Witness for the amended C3 at a concrete input: an empty body fails
registerSchema on the required name, and the register route replies 400
VALIDATION_ERROR with that message, leaving the database unchanged. -/
theorem C3_validation_before_persistence_witness :
    registerUser c3Db [] 0 =
      plainResult (errorResponse "Name is required" "VALIDATION_ERROR" 400) c3Db :=
  C3_validation_before_persistence.1 c3Db [] 0 "Name is required" rfl

/-- C4: the pagination contract. The pages field equals the rational ceiling
of total over limit, and concatenating the row lists of pages 1 through
pages, under each endpoint's fixed ordering, reproduces the full ordered
matching list, which is a permutation of the matching rows: each matching
row appears exactly once. Stated generically for the shared pagination
computation and instantiated on the leads and customers list routes. -/
theorem C4_pagination_invariant :
    (∀ N L : Nat, 1 ≤ L → (totalPages N L : ℤ) = Int.ceil ((N : ℚ) / (L : ℚ))) ∧
    (∀ (α : Type) (rows : List α) (L : Nat), 1 ≤ L →
       ((List.range (totalPages rows.length L)).map
         (fun i => pageSlice rows L (i + 1))).flatten = rows) ∧
    (∀ (db : Db) (stage? : Option Stage) (L p : Nat), 1 ≤ L →
       (listLeads db stage? p L).2.pages =
         totalPages ((db.leads.filter (leadWhere stage?)).length) L ∧
       (listLeads db stage? p L).2.total =
         (db.leads.filter (leadWhere stage?)).length ∧
       ((List.range ((listLeads db stage? 1 L).2.pages)).map
         (fun i => (listLeads db stage? (i + 1) L).1)).flatten = listLeadsAll db stage? ∧
       (listLeadsAll db stage?).Perm (db.leads.filter (leadWhere stage?))) ∧
    (∀ (db : Db) (search? : Option String) (tags? : Option (List String)) (L p : Nat),
       1 ≤ L →
       (listCustomers db search? tags? p L).2.pages =
         totalPages ((db.customers.filter (customerWhere search? tags?)).length) L ∧
       (listCustomers db search? tags? p L).2.total =
         (db.customers.filter (customerWhere search? tags?)).length ∧
       ((List.range ((listCustomers db search? tags? 1 L).2.pages)).map
         (fun i => (listCustomers db search? tags? (i + 1) L).1)).flatten =
         listCustomersAll db search? tags? ∧
       (listCustomersAll db search? tags?).Perm
         (db.customers.filter (customerWhere search? tags?))) := by
  refine ⟨fun N L hL => totalPages_eq_ceil N L hL, ?_, ?_, ?_⟩
  · intro α rows L hL
    exact join_pageSlices L hL rows.length rows le_rfl
  · intro db st L p hL
    have hperm : (listLeadsAll db st).Perm (db.leads.filter (leadWhere st)) := by
      unfold listLeadsAll
      exact sortRowsBy_perm _ _
    refine ⟨?_, ?_, ?_, hperm⟩
    · show totalPages (listLeadsAll db st).length L = _
      rw [hperm.length_eq]
    · show (listLeadsAll db st).length = _
      rw [hperm.length_eq]
    · exact join_pageSlices L hL (listLeadsAll db st).length (listLeadsAll db st) le_rfl
  · intro db se ta L p hL
    have hperm : (listCustomersAll db se ta).Perm
        (db.customers.filter (customerWhere se ta)) := by
      unfold listCustomersAll
      exact sortRowsBy_perm _ _
    refine ⟨?_, ?_, ?_, hperm⟩
    · show totalPages (listCustomersAll db se ta).length L = _
      rw [hperm.length_eq]
    · show (listCustomersAll db se ta).length = _
      rw [hperm.length_eq]
    · exact join_pageSlices L hL (listCustomersAll db se ta).length
        (listCustomersAll db se ta) le_rfl

/-- Witness for C4 at concrete input: five rows with limit two give three
pages. -/
theorem C4_pagination_invariant_witness :
    (totalPages 5 2 : ℤ) = Int.ceil ((5 : ℚ) / (2 : ℚ)) :=
  C4_pagination_invariant.1 5 2 (by decide)

/-! ## Helper lemmas for the conversion-rate claim -/

theorem toFixed2_zero : toFixed2 0 = 0 := by
  unfold toFixed2
  have h : Int.floor ((0 : ℚ) * 100 + 1 / 2) = 0 := by
    rw [Int.floor_eq_iff]
    constructor <;> norm_num
  rw [h]
  norm_num

theorem overviewTotalLeads_eq (leads : List LeadRow) :
    overviewTotalLeads leads = leads.length := by
  unfold overviewTotalLeads stageStats
  rw [List.map_map]
  show (((leads.map (fun l => l.stage)).dedup).map
    (fun s => (leads.filter (fun l => l.stage = s)).length)).sum = leads.length
  exact length_filter_key_sum (fun l => l.stage) _ leads
    (fun x hx => List.mem_dedup.mpr (List.mem_map_of_mem _ hx))
    (List.nodup_dedup _)

theorem overviewClosedLeads_eq (leads : List LeadRow) :
    overviewClosedLeads leads =
      (leads.filter (fun l => l.stage = Stage.closed)).length := by
  unfold overviewClosedLeads stageStats
  by_cases h : Stage.closed ∈ (leads.map (fun l => l.stage)).dedup
  · rw [find_grouped_counts
      (fun s => (leads.filter (fun l => l.stage = s)).length) Stage.closed _ h]
  · rw [find_grouped_counts_none
      (fun s => (leads.filter (fun l => l.stage = s)).length) Stage.closed _ h]
    have hnil : leads.filter (fun l => l.stage = Stage.closed) = [] := by
      rw [List.filter_eq_nil_iff]
      intro a ha hcl
      apply h
      apply List.mem_dedup.mpr
      apply List.mem_map.mpr
      exact ⟨a, ha, by simpa using hcl⟩
    rw [hnil]
    rfl

theorem filter_swap {α : Type} (p q : α → Bool) (l : List α) :
    (l.filter p).filter q = (l.filter q).filter p := by
  rw [List.filter_filter, List.filter_filter]
  apply List.filter_congr
  intro x _
  exact Bool.and_comm (q x) (p x)

theorem conversion_leads_sum (leads : List LeadRow) (periodOf : LeadRow → Nat)
    (ws : Nat) :
    conversionTotalLeads leads periodOf ws =
      (leads.filter (fun l => ws ≤ l.createdAt)).length := by
  unfold conversionTotalLeads conversionRates conversionGroups
  rw [List.map_map, List.map_map]
  show ((sortRowsBy (fun a b => decide (a ≤ b))
      (((leads.filter (fun l => ws ≤ l.createdAt)).map periodOf).dedup)).map
    (fun p => ((leads.filter (fun l => ws ≤ l.createdAt)).filter
      (fun l => periodOf l = p)).length)).sum = _
  rw [List.Perm.sum_eq (List.Perm.map _ (sortRowsBy_perm _ _))]
  exact length_filter_key_sum periodOf _ _
    (fun x hx => List.mem_dedup.mpr (List.mem_map_of_mem _ hx))
    (List.nodup_dedup _)

theorem conversion_closed_sum (leads : List LeadRow) (periodOf : LeadRow → Nat)
    (ws : Nat) :
    conversionTotalClosed leads periodOf ws =
      ((leads.filter (fun l => ws ≤ l.createdAt)).filter
        (fun l => l.stage = Stage.closed)).length := by
  unfold conversionTotalClosed conversionRates conversionGroups
  rw [List.map_map, List.map_map]
  show ((sortRowsBy (fun a b => decide (a ≤ b))
      (((leads.filter (fun l => ws ≤ l.createdAt)).map periodOf).dedup)).map
    (fun p => (((leads.filter (fun l => ws ≤ l.createdAt)).filter
      (fun l => periodOf l = p)).filter (fun l => l.stage = Stage.closed)).length)).sum = _
  rw [List.Perm.sum_eq (List.Perm.map _ (sortRowsBy_perm _ _))]
  have hswap :
      (fun p => (((leads.filter (fun l => ws ≤ l.createdAt)).filter
        (fun l => periodOf l = p)).filter (fun l => l.stage = Stage.closed)).length) =
      fun p => ((((leads.filter (fun l => ws ≤ l.createdAt)).filter
        (fun l => l.stage = Stage.closed)).filter (fun l => periodOf l = p)).length) := by
    funext p
    rw [filter_swap]
  rw [hswap]
  exact length_filter_key_sum periodOf _ _
    (fun x hx =>
      List.mem_dedup.mpr (List.mem_map_of_mem _ (List.mem_of_mem_filter hx)))
    (List.nodup_dedup _)

/-- C5: every conversion rate the API reports follows the contract: 0 when
the aggregated lead count is 0, and otherwise the closed count over the
total count times 100, rounded to two decimals. Proved for the overview
stats route, for the two dashboard routes, and for the conversion report
(the averaged rate over the trailing window, and each period bucket's rate
over that bucket's leads). -/
theorem C5_conversion_rate_contract :
    (∀ leads, overviewConversionRate leads = specConversionRate leads) ∧
    (∀ leads, dashboardConversionRate leads = specConversionRate leads) ∧
    (∀ (leads : List LeadRow) (periodOf : LeadRow → Nat) (ws : Nat),
       conversionAverageRate leads periodOf ws =
         specConversionRate (leads.filter (fun l => ws ≤ l.createdAt))) ∧
    (∀ (leads : List LeadRow) (periodOf : LeadRow → Nat) (ws : Nat)
       (bkt : ConvBucket), bkt ∈ conversionRates leads periodOf ws →
       bkt.rate = specConversionRate
         ((leads.filter (fun l => ws ≤ l.createdAt)).filter
           (fun l => periodOf l = bkt.period))) := by
  refine ⟨?_, ?_, ?_, ?_⟩
  · intro leads
    unfold overviewConversionRate specConversionRate
    rw [overviewTotalLeads_eq, overviewClosedLeads_eq]
    by_cases h : leads.length = 0
    · simp [h, toFixed2_zero]
    · have h0 : 0 < leads.length := Nat.pos_of_ne_zero h
      simp [h, h0]
  · intro leads
    unfold dashboardConversionRate dashboardTotalLeads dashboardClosedLeads
      specConversionRate
    by_cases h : leads.length = 0
    · simp [h, toFixed2_zero]
    · have h0 : 0 < leads.length := Nat.pos_of_ne_zero h
      simp [h, h0]
  · intro leads periodOf ws
    unfold conversionAverageRate specConversionRate
    rw [conversion_leads_sum, conversion_closed_sum]
    by_cases h : (leads.filter (fun l => ws ≤ l.createdAt)).length = 0
    · simp [h, toFixed2_zero]
    · have h0 : 0 < (leads.filter (fun l => ws ≤ l.createdAt)).length :=
        Nat.pos_of_ne_zero h
      simp [h, h0]
  · intro leads periodOf ws bkt hb
    unfold conversionRates at hb
    rw [List.mem_map] at hb
    obtain ⟨g, hg, hbe⟩ := hb
    unfold conversionGroups at hg
    rw [List.mem_map] at hg
    obtain ⟨p, hp, hge⟩ := hg
    subst hge
    subst hbe
    dsimp only
    unfold specConversionRate
    by_cases h : ((leads.filter (fun l => ws ≤ l.createdAt)).filter
        (fun l => periodOf l = p)).length = 0
    · rw [if_pos h, if_neg (by omega : ¬ 0 < ((leads.filter
        (fun l => ws ≤ l.createdAt)).filter (fun l => periodOf l = p)).length)]
    · have h0 : 0 < ((leads.filter (fun l => ws ≤ l.createdAt)).filter
          (fun l => periodOf l = p)).length := Nat.pos_of_ne_zero h
      rw [if_pos h0, if_neg h]

/-- Witness for C5 at concrete input: the single bucket produced by one
qualified lead carries rate 0, matching the contract on its one-lead
collection with no closed lead. -/
theorem C5_conversion_rate_contract_witness :
    ({ period := 7, leadsCount := 1, closedCount := 0, rate := 0 } : ConvBucket).rate =
      specConversionRate (([c1Lead].filter (fun l => 0 ≤ l.createdAt)).filter
        (fun l => (fun _ : LeadRow => 7) l =
          ({ period := 7, leadsCount := 1, closedCount := 0, rate := 0 } : ConvBucket).period)) :=
  C5_conversion_rate_contract.2.2.2 [c1Lead] (fun _ => 7) 0
    { period := 7, leadsCount := 1, closedCount := 0, rate := 0 }
    (by
      have hg : conversionGroups [c1Lead] (fun _ => 7) 0 = [(7, 1, 0)] := rfl
      have h : conversionRates [c1Lead] (fun _ => 7) 0 =
          [{ period := 7, leadsCount := 1, closedCount := 0, rate := 0 }] := by
        unfold conversionRates
        rw [hg]
        norm_num [toFixed2_zero]
      rw [h]
      exact List.mem_singleton_self _)

/-! ## Helper lemmas for the auth and serialization claims -/

theorem plainResult_userRep (r : Response) (db : Db) :
    (plainResult r db).userRep = none := rfl

theorem toJSONUser_hasKey_password (u : UserRow) :
    (toJSONUser u).hasKey "password" = false := rfl

theorem excludePassword_hasKey_password (u : UserRow) :
    (excludePasswordAttributes u).hasKey "password" = false := rfl

/-- C6: an expired token, a malformed token, and a decoded token whose user
id matches no existing user all fail token validation with status 401 and
code AUTHENTICATION_ERROR; the expired and malformed outcomes carry the same
status and code and differ only in the error message. -/
theorem C6_token_failures_uniform :
    (∀ db : Db, authenticateToken db TokenCheck.expired =
       Except.error (errorResponse "Token expired" "AUTHENTICATION_ERROR" 401)) ∧
    (∀ db : Db, authenticateToken db TokenCheck.malformed =
       Except.error (errorResponse "Invalid token" "AUTHENTICATION_ERROR" 401)) ∧
    (∀ (db : Db) (uid : Nat), db.users.find? (fun u => u.id = uid) = none →
       authenticateToken db (TokenCheck.decoded uid) =
         Except.error (errorResponse "User not found" "AUTHENTICATION_ERROR" 401)) ∧
    ((errorResponse "Token expired" "AUTHENTICATION_ERROR" 401).status =
       (errorResponse "Invalid token" "AUTHENTICATION_ERROR" 401).status ∧
     (errorResponse "Token expired" "AUTHENTICATION_ERROR" 401).code =
       (errorResponse "Invalid token" "AUTHENTICATION_ERROR" 401).code ∧
     (errorResponse "Token expired" "AUTHENTICATION_ERROR" 401).errMsg ≠
       (errorResponse "Invalid token" "AUTHENTICATION_ERROR" 401).errMsg) := by
  refine ⟨fun db => rfl, fun db => rfl, ?_, rfl, rfl, ?_⟩
  · intro db uid h
    unfold authenticateToken
    dsimp only
    rw [h]
  · decide

/-- Witness for C6 at concrete input: a decoded user id matching no row of
the two-user database is rejected 401 AUTHENTICATION_ERROR. -/
theorem C6_token_failures_uniform_witness :
    authenticateToken c3Db (TokenCheck.decoded 5) =
      Except.error (errorResponse "User not found" "AUTHENTICATION_ERROR" 401) :=
  C6_token_failures_uniform.2.2.1 c3Db 5 rfl

/-- C7: the role gate rejects a request with no resolved principal 401
AUTHENTICATION_ERROR and a principal whose role is outside the declared set
403 AUTHORIZATION_ERROR; in particular the admin-only user-list endpoint
rejects a principal with the user role 403 AUTHORIZATION_ERROR. -/
theorem C7_role_gates :
    (∀ roles : List Role, requireRole roles none =
       some (errorResponse "Authentication required" "AUTHENTICATION_ERROR" 401)) ∧
    (∀ (roles : List Role) (u : UserRow), roles.contains u.role = false →
       requireRole roles (some u) =
         some (errorResponse "Insufficient permissions" "AUTHORIZATION_ERROR" 403)) ∧
    (∀ (db : Db) (u : UserRow) (page limit : Nat), u.role = Role.user →
       listUsersEndpoint db (some u) page limit =
         Except.error (errorResponse "Insufficient permissions" "AUTHORIZATION_ERROR" 403)) := by
  refine ⟨fun roles => rfl, ?_, ?_⟩
  · intro roles u h
    unfold requireRole
    dsimp only
    rw [h]
    rfl
  · intro db u page limit h
    unfold listUsersEndpoint requireAdmin requireRole
    dsimp only
    rw [h]
    rfl

/-- Witness for C7 at concrete input: the concrete non-admin principal
calling the user-list endpoint receives 403 AUTHORIZATION_ERROR. -/
theorem C7_role_gates_witness :
    listUsersEndpoint c3Db (some c7User) 1 10 =
      Except.error (errorResponse "Insufficient permissions" "AUTHORIZATION_ERROR" 403) :=
  C7_role_gates.2.2 c3Db c7User 1 10 rfl

/-- C8: no operation returning a user representation ever carries a password
key: toJSON strips it on instances, the list and read queries exclude it at
attribute level, and registration, login, me, user list, user read and user
update only emit representations built that way. -/
theorem C8_password_never_returned :
    (∀ u : UserRow, (toJSONUser u).hasKey "password" = false) ∧
    (∀ u : UserRow, (excludePasswordAttributes u).hasKey "password" = false) ∧
    (∀ (db : Db) (b : JObj) (now : Nat) (j : JObj),
       (registerUser db b now).userRep = some j → j.hasKey "password" = false) ∧
    (∀ (db : Db) (b : JObj) (j : JObj),
       (loginUser db b).userRep = some j → j.hasKey "password" = false) ∧
    (∀ (db : Db) (u : UserRow) (j : JObj),
       (getMe db u).userRep = some j → j.hasKey "password" = false) ∧
    (∀ (db : Db) (page limit : Nat) (j : JObj),
       j ∈ (listUsers db page limit).1 → j.hasKey "password" = false) ∧
    (∀ (db : Db) (uid : Nat) (j : JObj),
       (getUserById db uid).userRep = some j → j.hasKey "password" = false) ∧
    (∀ (db : Db) (uid : Nat) (b : JObj) (j : JObj),
       (updateUser db uid b).userRep = some j → j.hasKey "password" = false) := by
  refine ⟨fun u => rfl, fun u => rfl, ?_, ?_, ?_, ?_, ?_, ?_⟩
  · intro db b now j h
    simp only [registerUser, validateThen] at h
    split at h
    · rw [plainResult_userRep] at h
      exact Option.noConfusion h
    · cases he : getStr b "email"
      · rw [he] at h
        dsimp only at h
        rw [plainResult_userRep] at h
        exact Option.noConfusion h
      · rw [he] at h
        cases hn : getStr b "name"
        · rw [hn] at h
          dsimp only at h
          rw [plainResult_userRep] at h
          exact Option.noConfusion h
        · rw [hn] at h
          cases hp : getStr b "password"
          · rw [hp] at h
            dsimp only at h
            rw [plainResult_userRep] at h
            exact Option.noConfusion h
          · rw [hp] at h
            dsimp only at h
            split at h
            · rw [plainResult_userRep] at h
              exact Option.noConfusion h
            · injection h with h2
              rw [← h2]
              exact toJSONUser_hasKey_password _
  · intro db b j h
    simp only [loginUser, validateThen] at h
    split at h
    · rw [plainResult_userRep] at h
      exact Option.noConfusion h
    · cases he : getStr b "email"
      · rw [he] at h
        dsimp only at h
        rw [plainResult_userRep] at h
        exact Option.noConfusion h
      · rw [he] at h
        cases hp : getStr b "password"
        · rw [hp] at h
          dsimp only at h
          rw [plainResult_userRep] at h
          exact Option.noConfusion h
        · rw [hp] at h
          dsimp only at h
          split at h
          · rw [plainResult_userRep] at h
            exact Option.noConfusion h
          · split at h
            · injection h with h2
              rw [← h2]
              exact toJSONUser_hasKey_password _
            · rw [plainResult_userRep] at h
              exact Option.noConfusion h
  · intro db u j h
    unfold getMe at h
    dsimp only at h
    injection h with h2
    rw [← h2]
    exact toJSONUser_hasKey_password _
  · intro db page limit j h
    unfold listUsers at h
    dsimp only at h
    rw [List.mem_map] at h
    obtain ⟨u, _, h2⟩ := h
    rw [← h2]
    exact excludePassword_hasKey_password _
  · intro db uid j h
    simp only [getUserById] at h
    split at h
    · rw [plainResult_userRep] at h
      exact Option.noConfusion h
    · injection h with h2
      rw [← h2]
      exact excludePassword_hasKey_password _
  · intro db uid b j h
    simp only [updateUser] at h
    split at h
    · rw [plainResult_userRep] at h
      exact Option.noConfusion h
    · split at h
      · rw [plainResult_userRep] at h
        exact Option.noConfusion h
      · injection h with h2
        rw [← h2]
        exact toJSONUser_hasKey_password _

/-- The user row created by the concrete registration of the C8 witness. -/
def c8NewUser : UserRow :=
  { id := 3, name := "Alice Doe", email := "alice@example.com",
    password := bcryptHash "secret1", role := Role.user, createdAt := 9 }

/-- Witness for C8 at concrete input: the representation returned by a
concrete successful registration has no password key. -/
theorem C8_password_never_returned_witness :
    (toJSONUser c8NewUser).hasKey "password" = false :=
  C8_password_never_returned.2.2.1 c3Db
    [("name", JVal.s "Alice Doe"), ("email", JVal.s "alice@example.com"),
     ("password", JVal.s "secret1")] 9 (toJSONUser c8NewUser) rfl

/-- C9: an admin principal asking the admin user-management delete endpoint
to delete their own id is rejected 400 VALIDATION_ERROR before any lookup,
and the database, in particular that admin's user row, is unchanged. -/
theorem C9_self_delete_rejected :
    ∀ (db : Db) (u : UserRow), u.role = Role.admin →
      deleteUserEndpoint db (some u) u.id =
        plainResult (errorResponse "Cannot delete your own account" "VALIDATION_ERROR" 400) db := by
  intro db u h
  unfold deleteUserEndpoint requireAdmin requireRole deleteUser
  dsimp only
  rw [h]
  simp

/-- Witness for C9 at concrete input: the concrete admin deleting their own
id receives 400 VALIDATION_ERROR and the store is untouched. -/
theorem C9_self_delete_rejected_witness :
    deleteUserEndpoint c3Db (some c3Admin) c3Admin.id =
      plainResult (errorResponse "Cannot delete your own account" "VALIDATION_ERROR" 400) c3Db :=
  C9_self_delete_rejected c3Db c3Admin rfl

/-- C10: for an existing lead and any of the four stage values, the
stage-only update rewrites exactly that lead's stage and updated-at fields
and nothing else: the users, customers, tasks and interactions tables are
untouched, every other lead row is untouched, and the updated row keeps all
its remaining fields; the route replies 200 with the old and new stage. -/
theorem C10_stage_update_frame :
    ∀ (db : Db) (lid : Nat) (st : Stage) (now : Nat) (l : LeadRow),
      db.leads.find? (fun x => x.id = lid) = some l →
      updateLeadStage db lid [("stage", JVal.s (stageToString st))] now =
        { resp := successResponse "Lead stage updated successfully" 200,
          db := { db with leads := db.leads.map (fun x =>
            if x.id = lid then { x with stage := st, updatedAt := now } else x) },
          userRep := none, oldStage := some l.stage, newStage := some st } := by
  intro db lid st now l hfind
  unfold updateLeadStage validateThen
  have hcheck : updateLeadStageCheck [("stage", JVal.s (stageToString st))] = none := by
    cases st <;> rfl
  rw [hcheck]
  dsimp only
  rw [hfind]
  have hparse : (getStr [("stage", JVal.s (stageToString st))] "stage").bind stageOfString =
      some st := by
    cases st <;> rfl
  dsimp only
  rw [hparse]

/-- Witness for C10 at concrete input: moving the concrete qualified lead to
closed touches only its stage and updated-at fields. -/
theorem C10_stage_update_frame_witness :
    updateLeadStage c1Db 1 [("stage", JVal.s (stageToString Stage.closed))] 99 =
      { resp := successResponse "Lead stage updated successfully" 200,
        db := { c1Db with leads := c1Db.leads.map (fun x =>
          if x.id = 1 then { x with stage := Stage.closed, updatedAt := 99 } else x) },
        userRep := none, oldStage := some c1Lead.stage, newStage := some Stage.closed } :=
  C10_stage_update_frame c1Db 1 Stage.closed 99 c1Lead rfl

end CRM
